import Mathlib

set_option maxHeartbeats 1000000
set_option autoImplicit false

/-! Shallow embedding of `src/movie_scraper.py`: the rendered-markup document
tree, the BeautifulSoup queries the extractor uses, the per-item and per-page
extraction of `scrape_movies`, and the CSV serialization of `save_to_csv`. -/

/-- Node of the parsed document tree of a rendered page: an element with its
tag name, class list, attribute list and children in document order, or a
text node. -/
inductive Node where
  | elem (tag : String) (classes : List String) (attrs : List (String × String)) (children : List Node)
  | text (s : String)

/-- Model of Python `str.strip`: the string with leading and trailing
whitespace removed. -/
def pyStrip (s : String) : String :=
  String.mk (((s.data.dropWhile Char.isWhitespace).reverse.dropWhile Char.isWhitespace).reverse)

/-- Model of Python `str.startswith`. -/
def pyStartsWith (s p : String) : Bool :=
  p.data.isPrefixOf s.data

/-- Model of Python `sep.join(parts)`. -/
def pyJoin (sep : String) : List String → String
  | [] => ""
  | [x] => x
  | x :: y :: xs => x ++ sep ++ pyJoin sep (y :: xs)

/-- Whether a node matches a tag-name query with an optional class filter, as
BeautifulSoup matches `find(tag, class_=c)`: the node is an element with that
tag name and, when a class is requested, the class occurs in its class list. -/
def nodeMatches (tag : String) (cls : Option String) : Node → Bool
  | .text _ => false
  | .elem t cs _ _ =>
      t == tag && (match cls with
        | none => true
        | some c => cs.contains c)

mutual
/-- Matching elements of the subtree rooted at a node, the root included, in
document (preorder) order. -/
def findAllFrom (tag : String) (cls : Option String) : Node → List Node
  | .text _ => []
  | .elem t cs ats children =>
      (if nodeMatches tag cls (.elem t cs ats children) then [Node.elem t cs ats children] else [])
        ++ findAllList tag cls children
/-- Matching elements of the subtrees of a list of nodes, in order. -/
def findAllList (tag : String) (cls : Option String) : List Node → List Node
  | [] => []
  | n :: ns => findAllFrom tag cls n ++ findAllList tag cls ns
end

/-- BeautifulSoup `find_all(tag, class_=cls)` on a node: every matching
element among its descendants, in document order (the node itself excluded). -/
def find_all (tag : String) (cls : Option String) (n : Node) : List Node :=
  match n with
  | .text _ => []
  | .elem _ _ _ children => findAllList tag cls children

/-- BeautifulSoup `find`: the first matching descendant, if any. -/
def find (tag : String) (cls : Option String) (n : Node) : Option Node :=
  (find_all tag cls n).head?

/-- BeautifulSoup `tag.get(key)` / `tag[key]`: the value of an attribute of an
element node, if present. -/
def getAttr (n : Node) (key : String) : Option String :=
  match n with
  | .text _ => none
  | .elem _ _ ats _ => (ats.find? (fun p => p.1 == key)).map (fun p => p.2)

mutual
/-- BeautifulSoup `get_text(strip=True)`: the concatenation, in document
order, of every descendant text string with its surrounding whitespace
removed. -/
def get_text_strip : Node → String
  | .text s => pyStrip s
  | .elem _ _ _ children => getTextList children
/-- Concatenated stripped text of a list of nodes. -/
def getTextList : List Node → String
  | [] => ""
  | n :: ns => get_text_strip n ++ getTextList ns
end

/-- Base URL constant of line 24 of the source. -/
def BASE_URL : String := "https://ssr1.scrape.center"

/-- Whether a URL reference begins with a scheme component: an alphabetic
character, then alphanumerics or plus, minus, dot, then a colon. -/
def hasScheme (s : String) : Bool :=
  match s.data with
  | [] => false
  | c :: _ =>
      c.isAlpha &&
        ((s.data.dropWhile (fun d => d.isAlphanum || d == '+' || d == '-' || d == '.')).head?
          == some ':')

/-- Modelled from the spec: `urllib.parse.urljoin` is a standard-library
collaborator outside the repository; the spec asks that a relative reference
be resolved to absolute form against the fixed base URL. A reference carrying
its own scheme stands alone; a network-path reference inherits the base
scheme; an absolute path is appended to the base origin; any other non-empty
reference is resolved from the base root (the base URL has an empty path). -/
def urljoin (base ref : String) : String :=
  if ref = "" then base
  else if hasScheme ref then ref
  else if pyStartsWith ref ("//") then String.mk (base.data.takeWhile (fun c => c != ':')) ++ (":") ++ ref
  else if pyStartsWith ref ("/") then base ++ ref
  else base ++ ("/") ++ ref

/-- Image-URL block of lines 79 to 85: the first `img` descendant's `src`
attribute; a missing element, missing attribute or empty attribute leaves the
sentinel, and a non-empty source not beginning with `http` is resolved
against the base URL. -/
def extract_image_url (item : Node) : String :=
  match find ("img") none item with
  | none => "N/A"
  | some imgElem =>
      match getAttr imgElem ("src") with
      | none => "N/A"
      | some src =>
          if src = "" then "N/A"
          else if pyStartsWith src ("http") then src
          else urljoin BASE_URL src

/-- Linked-element lookup of lines 88 to 90: the first `a` element of class
`name`, falling back to the first `a` element of any class. -/
def nameLink (item : Node) : Option Node :=
  match find ("a") (some ("name")) item with
  | some e => some e
  | none => find ("a") none item

/-- Name value of lines 92 to 97: with no linked element the sentinel; with a
truthy (non-empty) `title` attribute the stripped attribute value, otherwise
the element's stripped text. -/
def extract_name (item : Node) : String :=
  match nameLink item with
  | none => "N/A"
  | some e =>
      match getAttr e ("title") with
      | some t => if t = "" then get_text_strip e else pyStrip t
      | none => get_text_strip e

/-- Rating block of lines 99 to 103: the stripped text of the first `p`
element of class `score`, or the sentinel when there is none. -/
def extract_rating (item : Node) : String :=
  match find ("p") (some ("score")) item with
  | none => "N/A"
  | some e => get_text_strip e

/-- Genre block of lines 105 to 110: the stripped texts of all `button`
elements of class `category`, joined by single spaces in document order, or
the sentinel when there are none. -/
def extract_genre (item : Node) : String :=
  match find_all ("button") (some ("category")) item with
  | [] => "N/A"
  | cats => pyJoin (" ") (cats.map get_text_strip)

/-- Output record shape of lines 114 to 119. -/
structure Record where
  name : String
  image_url : String
  rating : String
  genre : String
deriving DecidableEq

/-- Results of evaluating the four field blocks of the item body, lines 79 to
110: the shallow embedding records a block that raises as `Except.error` with
the exception text, and a block that returns as `Except.ok`. -/
structure FieldResults where
  img : Except String String
  name : Except String String
  rating : Except String String
  genre : Except String String

/-- Body of the per-item `try` of lines 78 to 125: the four field blocks run
under one item-level handler, so a raise in any of them is caught there and
the item yields no record; otherwise the record is appended only when the
image URL moved off the sentinel (line 113). -/
def processItem (fr : FieldResults) : Option Record :=
  match fr.img, fr.name, fr.rating, fr.genre with
  | .ok i, .ok n, .ok r, .ok g => if i = "N/A" then none else some (Record.mk n i r g)
  | _, _, _, _ => none

/-- Field results of a parsed DOM item: the four extraction blocks are total
functions of the tree, so each returns. -/
def pureFields (item : Node) : FieldResults :=
  FieldResults.mk (Except.ok (extract_image_url item)) (Except.ok (extract_name item))
    (Except.ok (extract_rating item)) (Except.ok (extract_genre item))

/-- Per-item extraction, lines 78 to 125, for one parsed container. -/
def extractMovie (item : Node) : Option Record :=
  processItem (pureFields item)

/-- Item loop of lines 77 to 125 over the field results of a page's items:
each item is handled independently and the records of the kept items are
collected in order. -/
def processPage (items : List FieldResults) : List Record :=
  items.filterMap processItem

/-- Record extraction for one rendered page, lines 72 to 125: every `div`
element of class `item` is located and fed to the item loop. -/
def extractRecords (soup : Node) : List Record :=
  processPage ((find_all ("div") (some ("item")) soup).map pureFields)

/-- One iteration of the page loop, lines 58 to 140: a page whose rendering
raised is caught by the page-level handler and contributes no records, and a
rendered page contributes its extracted records. -/
def scrapePage (page : Except String Node) : List Record :=
  match page with
  | .error _ => []
  | .ok soup => extractRecords soup

/-- Page loop of `scrape_movies`, lines 51 to 142: pages 1 through
`num_pages` are rendered and extracted in order and their records
accumulated; the render outcome of each page index is abstracted as the
function `render`. -/
def scrape_movies (render : Nat → Except String Node) (num_pages : Int) : List Record :=
  ((List.range num_pages.toNat).map (fun i => scrapePage (render (i + 1)))).flatten

/-! CSV output of `save_to_csv`, lines 145 to 172, with the row serialization
of the csv module's excel dialect (a standard-library collaborator outside
the repository): comma delimiter, minimal quoting with quote doubling, CRLF
row terminator. -/

/-- Whether a CSV field value must be quoted under minimal quoting: it
contains the delimiter, the quote character or a line break. -/
def needsQuote (s : List Char) : Bool :=
  s.any (fun c => c == ',' || c == '"' || c == '\n' || c == '\r')

/-- Quote doubling inside a quoted CSV field. -/
def escapeQuotes : List Char → List Char
  | [] => []
  | c :: cs => if c = '"' then '"' :: '"' :: escapeQuotes cs else c :: escapeQuotes cs

/-- Serialization of one CSV field value. -/
def csvField (s : String) : List Char :=
  if needsQuote s.data then '"' :: (escapeQuotes s.data ++ ['"']) else s.data

/-- Characters of one record row, in the fixed field order of line 157,
before the row terminator. -/
def csvRowBody (r : Record) : List Char :=
  csvField r.name ++ ',' :: (csvField r.image_url ++ ',' :: (csvField r.rating ++ ',' :: csvField r.genre))

/-- One serialized record row, CRLF terminated. -/
def csvRow (r : Record) : List Char :=
  csvRowBody r ++ ['\r', '\n']

/-- Characters of the header row written by `writeheader`, line 164. -/
def csvHeaderBody : List Char :=
  ("name,image_url,rating,genre").data

/-- Content of the file written by `save_to_csv`, lines 145 to 172: `none`
when the record list is empty and the function returns at line 155 without
opening the file, otherwise the header row followed by one CRLF-terminated
row per record. -/
def save_to_csv (movies : List Record) : Option String :=
  match movies with
  | [] => none
  | _ => some (String.mk ((csvHeaderBody ++ ['\r', '\n']) ++ (movies.map csvRow).flatten))

/-- Division of file content into lines under universal newlines, as a text
file is read back: LF, CRLF and a lone CR each end a line, and a final
fragment without a terminator still counts as a line. -/
def splitLines : List Char → List (List Char)
  | [] => []
  | '\n' :: rest => [] :: splitLines rest
  | '\r' :: '\n' :: rest => [] :: splitLines rest
  | '\r' :: rest => [] :: splitLines rest
  | c :: rest =>
      match splitLines rest with
      | [] => [[c]]
      | l :: ls => (c :: l) :: ls

/-- Lines of a file's content. -/
def fileLines (s : String) : List String :=
  (splitLines s.data).map String.mk

/-- Whether a string is free of line-break characters. -/
def noBreak (s : String) : Bool :=
  s.data.all (fun c => c != '\n' && c != '\r')

/-- Whether every field of a record is free of line-break characters. -/
def recordClean (r : Record) : Bool :=
  noBreak r.name && noBreak r.image_url && noBreak r.rating && noBreak r.genre

/-! Concrete fixtures: a well-formed rendered page with three item
containers, and small single-purpose items. -/

/-- Category button carrying one label. -/
def catButton (s : String) : Node :=
  Node.elem ("button") [("category")] [] [Node.text s]

/-- Well-formed item container with a relative image source, a titled name
link, a rating and two categories. -/
def sampleItem (nm ttl src rat : String) (cats : List String) : Node :=
  Node.elem ("div") [("item")] []
    [Node.elem ("img") [] [(("src"), src)] [],
     Node.elem ("a") [("name")] [(("title"), ttl)] [Node.text nm],
     Node.elem ("p") [("score")] [] [Node.text rat],
     Node.elem ("div") [("categories")] [] (cats.map catButton)]

/-- Rendered page holding three well-formed item containers. -/
def samplePage : Node :=
  Node.elem ("html") [] []
    [Node.elem ("div") [("main")] []
      [sampleItem ("Farewell My Concubine") ("Farewell My Concubine") ("/img/1.jpg") ("9.5") [("Drama"), ("Romance")],
       sampleItem ("The Shawshank Redemption") ("The Shawshank Redemption") ("/img/2.jpg") ("9.5") [("Drama"), ("Crime")],
       sampleItem ("Leon") ("Leon") ("https://cdn.example.org/img/3.jpg") ("9.4") [("Action")]]]

/-- Render outcome used by the end-to-end examples: page 1 renders with three
well-formed items, every other page fails with a timeout. -/
def sampleRender : Nat → Except String Node
  | 1 => Except.ok samplePage
  | _ => Except.error ("TimeoutException")

/-- Empty rendered document: a page with no item containers. -/
def emptyDoc : Node :=
  Node.elem ("html") [] [] []

/-- Whether a field block raised. -/
def raised : Except String String → Bool
  | .error _ => true
  | .ok _ => false

/-- Item holding only an image with a relative source. -/
def relImgItem : Node :=
  Node.elem ("div") [("item")] [] [Node.elem ("img") [] [(("src"), ("/img/x.jpg"))] []]

/-- Item holding only a text node, with no image element at all. -/
def noImgItem : Node :=
  Node.elem ("div") [("item")] [] [Node.text ("no picture here")]

/-- Item whose image element carries an empty source. -/
def emptySrcItem : Node :=
  Node.elem ("div") [("item")] [] [Node.elem ("img") [] [(("src"), (""))] []]

/-- Name link of the titled-item fixture. -/
def titledLink : Node :=
  Node.elem ("a") [("name")] [(("title"), ("Farewell"))] [Node.text ("Farewell My Concubine")]

/-- Item whose name link has a non-empty title attribute and a longer text. -/
def titledItem : Node :=
  Node.elem ("div") [("item")] [] [titledLink]

/-- Name link of the untitled-item fixture, with no title attribute. -/
def untitledLink : Node :=
  Node.elem ("a") [("name")] [] [Node.text ("  Farewell My Concubine  ")]

/-- Item whose name link has no title attribute. -/
def untitledItem : Node :=
  Node.elem ("div") [("item")] [] [untitledLink]

/-- Name link carrying an empty title attribute next to a non-empty text. -/
def emptyTitleLink : Node :=
  Node.elem ("a") [("name")] [(("title"), (""))] [Node.text ("X")]

/-- Item whose name link carries an empty title attribute. -/
def emptyTitleItem : Node :=
  Node.elem ("div") [("item")] [] [emptyTitleLink]

/-- Item with two category buttons in separate subtrees, Drama before Crime
in document order. -/
def twoCatItem : Node :=
  Node.elem ("div") [("item")] []
    [catButton ("Drama"), Node.elem ("div") [("categories")] [] [catButton ("Crime")]]

/-- Item with a present score element whose text is whitespace only. -/
def emptyScoreItem : Node :=
  Node.elem ("div") [("item")] [] [Node.elem ("p") [("score")] [] [Node.text ("  ")]]

/-- Item with no score element. -/
def noScoreItem : Node :=
  Node.elem ("div") [("item")] [] [Node.elem ("p") [("other")] [] [Node.text ("9.5")]]

/-- Field results of an item whose image, rating and genre blocks returned
but whose name block raised. -/
def faultyNameFields : FieldResults :=
  FieldResults.mk (Except.ok ("https://ssr1.scrape.center/img/1.jpg"))
    (Except.error ("AttributeError")) (Except.ok ("9.5")) (Except.ok ("Drama"))

/-- Field results of an item whose rating block raised. -/
def faultyRatingFields : FieldResults :=
  FieldResults.mk (Except.ok ("https://ssr1.scrape.center/img/2.jpg"))
    (Except.ok ("Leon")) (Except.error ("TypeError")) (Except.ok ("Action"))

/-- Field results of a fully well-formed item. -/
def okFields : FieldResults :=
  FieldResults.mk (Except.ok ("https://ssr1.scrape.center/img/3.jpg"))
    (Except.ok ("Leon")) (Except.ok ("9.4")) (Except.ok ("Action"))

/-- Record extracted from the first item of the sample page. -/
def sampleRecord1 : Record :=
  Record.mk ("Farewell My Concubine") ("https://ssr1.scrape.center/img/1.jpg") ("9.5")
    ("Drama Romance")

/-- Item whose image source is already absolute. -/
def absImgItem : Node :=
  Node.elem ("div") [("item")] []
    [Node.elem ("img") [] [(("src"), ("https://cdn.example.org/img/3.jpg"))] []]

/-- Item with a non-category button and a non-button category element, so no
element matches the genre query. -/
def noCatItem : Node :=
  Node.elem ("div") [("item")] []
    [Node.elem ("button") [("primary")] [] [Node.text ("More")],
     Node.elem ("span") [("category")] [] [Node.text ("Drama")]]

/-- Score element of the whitespace-score fixture. -/
def scoreElem : Node :=
  Node.elem ("p") [("score")] [] [Node.text ("  ")]

/-! Helper lemmas shared by the claim theorems. -/

theorem processItem_eq_some {fr : FieldResults} {r : Record} (h : processItem fr = some r) :
    ∃ i n ra g, fr = FieldResults.mk (Except.ok i) (Except.ok n) (Except.ok ra) (Except.ok g) ∧
      i ≠ ("N/A") ∧ r = Record.mk n i ra g := by
  rcases fr with ⟨i, n, ra, g⟩
  cases i with
  | error e => simp [processItem] at h
  | ok iv =>
    cases n with
    | error e => simp [processItem] at h
    | ok nv =>
      cases ra with
      | error e => simp [processItem] at h
      | ok rv =>
        cases g with
        | error e => simp [processItem] at h
        | ok gv =>
          by_cases hi : iv = ("N/A")
          · simp [processItem, hi] at h
          · refine ⟨iv, nv, rv, gv, rfl, hi, ?_⟩
            simp [processItem, hi] at h
            exact h.symm

theorem processItem_none_of_raised {fr : FieldResults}
    (h : raised fr.img = true ∨ raised fr.name = true ∨
      raised fr.rating = true ∨ raised fr.genre = true) :
    processItem fr = none := by
  rcases fr with ⟨i, n, ra, g⟩
  cases i with
  | error e => rfl
  | ok iv =>
    cases n with
    | error e => rfl
    | ok nv =>
      cases ra with
      | error e => rfl
      | ok rv =>
        cases g with
        | error e => rfl
        | ok gv => simp [raised] at h

theorem mem_scrapePage {p : Except String Node} {r : Record} (h : r ∈ scrapePage p) :
    ∃ fr, processItem fr = some r := by
  cases p with
  | error e => simp [scrapePage] at h
  | ok soup =>
    simp only [scrapePage, extractRecords, processPage, List.mem_filterMap, List.mem_map] at h
    obtain ⟨fr, _, hfr⟩ := h
    exact ⟨fr, hfr⟩

theorem extractMovie_none_of_sentinel {item : Node} (h : extract_image_url item = ("N/A")) :
    extractMovie item = none := by
  simp [extractMovie, pureFields, processItem, h]

theorem mem_escapeQuotes {c : Char} {s : List Char} (h : c ∈ escapeQuotes s) :
    c ∈ s ∨ c = '"' := by
  induction s with
  | nil => simp [escapeQuotes] at h
  | cons d ds ih =>
    by_cases hd : d = '"'
    · rw [escapeQuotes, if_pos hd] at h
      simp only [List.mem_cons] at h
      rcases h with h | h | h
      · exact Or.inr h
      · exact Or.inr h
      · rcases ih h with h2 | h2
        · exact Or.inl (List.mem_cons_of_mem _ h2)
        · exact Or.inr h2
    · rw [escapeQuotes, if_neg hd] at h
      simp only [List.mem_cons] at h
      rcases h with h | h
      · exact Or.inl (by simp [h])
      · rcases ih h with h2 | h2
        · exact Or.inl (List.mem_cons_of_mem _ h2)
        · exact Or.inr h2

theorem noBreak_mem {s : String} (hs : noBreak s = true) :
    ∀ c ∈ s.data, c ≠ '\n' ∧ c ≠ '\r' := by
  intro c hc
  simp only [noBreak, List.all_eq_true] at hs
  have := hs c hc
  simpa using this

theorem csvField_noBreak {s : String} (hs : noBreak s = true) :
    ∀ c ∈ csvField s, c ≠ '\n' ∧ c ≠ '\r' := by
  intro c hc
  unfold csvField at hc
  split at hc
  · simp only [List.mem_cons, List.mem_append, List.mem_singleton, List.not_mem_nil,
      or_false] at hc
    rcases hc with rfl | hc | rfl
    · exact (by decide)
    · rcases mem_escapeQuotes hc with h2 | h2
      · exact noBreak_mem hs c h2
      · subst h2; exact (by decide)
    · exact (by decide)
  · exact noBreak_mem hs c hc

theorem csvRowBody_noBreak {r : Record} (hr : recordClean r = true) :
    ∀ c ∈ csvRowBody r, c ≠ '\n' ∧ c ≠ '\r' := by
  intro c hc
  simp only [recordClean, Bool.and_eq_true] at hr
  obtain ⟨⟨⟨h1, h2⟩, h3⟩, h4⟩ := hr
  simp only [csvRowBody, List.mem_append, List.mem_cons] at hc
  rcases hc with hc | rfl | hc | rfl | hc | rfl | hc
  · exact csvField_noBreak h1 c hc
  · exact (by decide)
  · exact csvField_noBreak h2 c hc
  · exact (by decide)
  · exact csvField_noBreak h3 c hc
  · exact (by decide)
  · exact csvField_noBreak h4 c hc

theorem splitLines_row {row : List Char} (h : ∀ c ∈ row, c ≠ '\n' ∧ c ≠ '\r')
    (X : List Char) : splitLines (row ++ '\r' :: '\n' :: X) = row :: splitLines X := by
  induction row with
  | nil => rfl
  | cons c cs ih =>
    have hc := h c (List.mem_cons_self _ _)
    have hcs : ∀ d ∈ cs, d ≠ '\n' ∧ d ≠ '\r' := fun d hd => h d (List.mem_cons_of_mem _ hd)
    rw [List.cons_append, splitLines.eq_def]
    split
    · simp_all
    · simp_all
    · simp_all
    · simp_all
    · rename_i c2 rest2 hne1 hne2 hne3 heq
      injection heq with heqc heqr
      subst heqc
      subst heqr
      rw [ih hcs]

theorem splitLines_rows {rows : List (List Char)}
    (h : ∀ row ∈ rows, ∀ c ∈ row, c ≠ '\n' ∧ c ≠ '\r') :
    splitLines ((rows.map (fun row => row ++ ['\r', '\n'])).flatten) = rows := by
  induction rows with
  | nil => rfl
  | cons row rest ih =>
    simp only [List.map_cons, List.flatten_cons, List.append_assoc, List.cons_append,
      List.nil_append]
    rw [splitLines_row (h row (List.mem_cons_self _ _))]
    rw [ih (fun r hr => h r (List.mem_cons_of_mem _ hr))]

/-! Claim theorems. -/

/-- C1: every record in the sequence returned by `scrape_movies` has
`image_url` different from the sentinel, and an item whose container lacks an
image element, or whose image source attribute is missing or empty, yields no
record, for every page and every item. -/
theorem scrape_movies_image_gate :
    (∀ (render : Nat → Except String Node) (n : Int) (r : Record),
        r ∈ scrape_movies render n → r.image_url ≠ ("N/A")) ∧
    (∀ item : Node,
        (find ("img") none item = none ∨
          ∃ img, find ("img") none item = some img ∧
            (getAttr img ("src") = none ∨ getAttr img ("src") = some (""))) →
        extractMovie item = none) := by
  constructor
  · intro render n r hr
    simp only [scrape_movies, List.mem_flatten, List.mem_map] at hr
    obtain ⟨l, ⟨i, _, rfl⟩, hrl⟩ := hr
    obtain ⟨fr, hfr⟩ := mem_scrapePage hrl
    obtain ⟨iv, nv, rv, gv, _, hne, rfl⟩ := processItem_eq_some hfr
    exact hne
  · intro item h
    apply extractMovie_none_of_sentinel
    rcases h with h | ⟨img, hfind, hsrc⟩
    · unfold extract_image_url
      rw [h]
    · rcases hsrc with h2 | h2 <;> simp [extract_image_url, hfind, h2]

/-- C1 witness: a concrete record of a two-page run has a non-sentinel image
URL, and a concrete item with no image element yields no record. -/
theorem scrape_movies_image_gate_witness :
    (sampleRecord1 ∈ scrape_movies sampleRender 2 ∧ sampleRecord1.image_url ≠ ("N/A")) ∧
    (find ("img") none noImgItem = none ∧ extractMovie noImgItem = none) :=
  ⟨⟨by decide, scrape_movies_image_gate.1 sampleRender 2 sampleRecord1 (by decide)⟩,
   ⟨rfl, scrape_movies_image_gate.2 noImgItem (Or.inl rfl)⟩⟩

/-- C2: a non-empty image source that does not begin with `http` (the
source's test for a relative reference, per the spec's gloss that an absolute
source is one beginning with an http scheme) is resolved against the fixed
base URL, a source beginning with `http` is used unchanged, and concretely
the source `/img/x.jpg` resolves to
`https://ssr1.scrape.center/img/x.jpg`. -/
theorem image_url_resolution :
    (∀ (item imgEl : Node) (src : String),
        find ("img") none item = some imgEl →
        getAttr imgEl ("src") = some src → src ≠ ("") →
        (pyStartsWith src ("http") = false →
            extract_image_url item = urljoin BASE_URL src) ∧
        (pyStartsWith src ("http") = true → extract_image_url item = src)) ∧
    extract_image_url relImgItem = ("https://ssr1.scrape.center/img/x.jpg") := by
  refine ⟨?_, by decide⟩
  intro item imgEl src hfind hsrc hne
  constructor
  · intro hsw
    simp [extract_image_url, hfind, hsrc, hne, hsw]
  · intro hsw
    simp [extract_image_url, hfind, hsrc, hne, hsw]

/-- C2 witness: the general resolution applied to the concrete relative and
absolute fixtures. -/
theorem image_url_resolution_witness :
    extract_image_url relImgItem = urljoin BASE_URL ("/img/x.jpg") ∧
    extract_image_url absImgItem = ("https://cdn.example.org/img/3.jpg") :=
  ⟨(image_url_resolution.1 relImgItem (Node.elem ("img") [] [(("src"), ("/img/x.jpg"))] [])
      ("/img/x.jpg") rfl rfl (by decide)).1 (by decide),
   (image_url_resolution.1 absImgItem
      (Node.elem ("img") [] [(("src"), ("https://cdn.example.org/img/3.jpg"))] [])
      ("https://cdn.example.org/img/3.jpg") rfl rfl (by decide)).2 (by decide)⟩

/-- C3 counterexample: an item whose linked element carries a title attribute
that is present but empty takes its name from the link text, not from the
trimmed title attribute, so the claimed fallback chain fails at this input. -/
theorem name_title_attribute_cex :
    nameLink emptyTitleItem = some emptyTitleLink ∧
    getAttr emptyTitleLink ("title") = some ("") ∧
    extract_name emptyTitleItem = ("X") ∧
    extract_name emptyTitleItem ≠ pyStrip ("") := by
  exact ⟨rfl, rfl, by decide, by decide⟩

/-- C3 amended: if the linked element has a non-empty title attribute the
name is the trimmed title attribute (the link's text is ignored); with an
empty or missing title attribute the name is the element's trimmed text; with
no linked element the name is the sentinel. -/
theorem name_fallback_chain :
    (∀ (item e : Node), nameLink item = some e →
        (∀ t, getAttr e ("title") = some t → t ≠ ("") → extract_name item = pyStrip t) ∧
        (getAttr e ("title") = some ("") → extract_name item = get_text_strip e) ∧
        (getAttr e ("title") = none → extract_name item = get_text_strip e)) ∧
    (∀ item : Node, nameLink item = none → extract_name item = ("N/A")) ∧
    extract_name titledItem = ("Farewell") ∧
    extract_name untitledItem = ("Farewell My Concubine") := by
  refine ⟨?_, ?_, by decide, by decide⟩
  · intro item e h
    refine ⟨?_, ?_, ?_⟩
    · intro t ht hne
      simp [extract_name, h, ht, hne]
    · intro ht
      simp [extract_name, h, ht]
    · intro ht
      simp [extract_name, h, ht]
  · intro item h
    unfold extract_name
    rw [h]

/-- C3 amended witness: the chain applied to the titled, untitled and
link-free fixtures. -/
theorem name_fallback_chain_witness :
    extract_name titledItem = pyStrip ("Farewell") ∧
    extract_name untitledItem = get_text_strip untitledLink ∧
    extract_name noImgItem = ("N/A") :=
  ⟨(name_fallback_chain.1 titledItem titledLink rfl).1 ("Farewell") rfl (by decide),
   (name_fallback_chain.1 untitledItem untitledLink rfl).2.2 rfl,
   name_fallback_chain.2.1 noImgItem rfl⟩

/-- C4: genre joins the trimmed texts of all category-label elements of the
container with single spaces in document order; with none the sentinel, and
concretely `Drama` and `Crime` give `Drama Crime`. -/
theorem genre_extraction :
    (∀ item : Node, find_all ("button") (some ("category")) item = [] →
        extract_genre item = ("N/A")) ∧
    (∀ (item : Node) (cats : List Node), find_all ("button") (some ("category")) item = cats →
        cats ≠ [] → extract_genre item = pyJoin (" ") (cats.map get_text_strip)) ∧
    extract_genre twoCatItem = ("Drama Crime") ∧
    extract_genre noCatItem = ("N/A") := by
  refine ⟨?_, ?_, by decide, by decide⟩
  · intro item h
    unfold extract_genre
    rw [h]
  · intro item cats h hne
    unfold extract_genre
    rw [h]
    cases cats with
    | nil => exact absurd rfl hne
    | cons a l => rfl

/-- C4 witness: the genre equations applied to the two concrete fixtures. -/
theorem genre_extraction_witness :
    extract_genre noCatItem = ("N/A") ∧
    extract_genre twoCatItem =
      pyJoin (" ") ([catButton ("Drama"), catButton ("Crime")].map get_text_strip) :=
  ⟨genre_extraction.1 noCatItem rfl,
   genre_extraction.2.1 twoCatItem [catButton ("Drama"), catButton ("Crime")] rfl
     (List.cons_ne_nil _ _)⟩

/-- C5: a page whose rendering fails contributes exactly what a page with no
items contributes, namely nothing, and the run continues over the other
pages; concretely, with two pages of which one renders three well-formed
items and the other times out, exactly 3 records are returned. -/
theorem render_failure_isolation :
    (∀ (render : Nat → Except String Node) (n : Int) (p : Nat) (e : String),
        render p = Except.error e →
        scrape_movies render n =
          scrape_movies (Function.update render p (Except.ok emptyDoc)) n) ∧
    sampleRender 2 = Except.error ("TimeoutException") ∧
    (scrape_movies sampleRender 2).length = 3 := by
  refine ⟨?_, rfl, by decide⟩
  intro render n p e he
  unfold scrape_movies
  congr 1
  apply List.map_congr_left
  intro i _
  by_cases hip : i + 1 = p
  · rw [hip, he, Function.update_same]
    rfl
  · rw [Function.update_noteq hip]

/-- C5 witness: the page-failure equivalence applied to the sample render at
its failing page. -/
theorem render_failure_isolation_witness :
    scrape_movies sampleRender 2 =
      scrape_movies (Function.update sampleRender 2 (Except.ok emptyDoc)) 2 :=
  render_failure_isolation.1 sampleRender 2 2 ("TimeoutException") rfl

/-- C6 counterexample: an item whose image block returned a non-sentinel URL
and whose rating and genre blocks returned values emits no record at all once
the name block raises, so a fault in one field does abort extraction of the
other fields of the same item. -/
theorem field_fault_aborts_item_cex :
    faultyNameFields.img = Except.ok ("https://ssr1.scrape.center/img/1.jpg") ∧
    (("https://ssr1.scrape.center/img/1.jpg") : String) ≠ ("N/A") ∧
    faultyNameFields.rating = Except.ok ("9.5") ∧
    faultyNameFields.genre = Except.ok ("Drama") ∧
    processItem faultyNameFields = none := by
  exact ⟨rfl, by decide, rfl, rfl, rfl⟩

/-- C6 amended: the four field extractions of an item run under a single
item-level guard, not independent per-field guards: a fault raised while
extracting any one field aborts the whole item, which then emits no record
(other items of the page are unaffected). -/
theorem item_level_guard (fr : FieldResults)
    (h : raised fr.img = true ∨ raised fr.name = true ∨ raised fr.rating = true ∨
      raised fr.genre = true) :
    processItem fr = none :=
  processItem_none_of_raised h

/-- C6 amended witness: the item-level guard applied to an item whose rating
block raised. -/
theorem item_level_guard_witness :
    raised faultyRatingFields.rating = true ∧ processItem faultyRatingFields = none :=
  ⟨rfl, item_level_guard faultyRatingFields (Or.inr (Or.inr (Or.inl rfl)))⟩

/-- C7: an extraction-time fault for one item is caught at the item level:
that item contributes no record and the records of the remaining items of
the same page are still emitted, unchanged. -/
theorem item_fault_isolation (pre post : List FieldResults) (fr : FieldResults)
    (h : raised fr.img = true ∨ raised fr.name = true ∨ raised fr.rating = true ∨
      raised fr.genre = true) :
    processPage (pre ++ fr :: post) = processPage pre ++ processPage post := by
  unfold processPage
  rw [List.filterMap_append]
  congr 1
  rw [List.filterMap_cons_none]
  exact processItem_none_of_raised h

/-- C7 witness: a faulting item between two well-formed items leaves the
page's other records intact. -/
theorem item_fault_isolation_witness :
    raised faultyNameFields.name = true ∧
    processPage ([okFields] ++ faultyNameFields :: [okFields]) =
      processPage [okFields] ++ processPage [okFields] :=
  ⟨rfl, item_fault_isolation [okFields] [okFields] faultyNameFields (Or.inr (Or.inl rfl))⟩

/-- C9: `scrape_movies` iterates the page indices 1 through `num_pages`, page
`num_pages` last, and for `num_pages` at most 0 performs no iterations and
returns the empty sequence. -/
theorem page_iteration (render : Nat → Except String Node) (n : Int) :
    (n ≤ 0 → scrape_movies render n = []) ∧
    (0 < n → scrape_movies render n =
        scrape_movies render (n - 1) ++ scrapePage (render n.toNat)) := by
  constructor
  · intro h
    unfold scrape_movies
    rw [Int.toNat_of_nonpos h]
    rfl
  · intro h
    unfold scrape_movies
    have h1 : n.toNat = (n - 1).toNat + 1 := by omega
    rw [h1, List.range_succ, List.map_append, List.flatten_append]
    simp

/-- C9 witness: the loop equations at page counts -1 and 2. -/
theorem page_iteration_witness :
    ((-1 : Int) ≤ 0 ∧ scrape_movies sampleRender (-1) = []) ∧
    ((0 : Int) < 2 ∧ scrape_movies sampleRender 2 =
        scrape_movies sampleRender 1 ++ scrapePage (sampleRender (2 : Int).toNat)) :=
  ⟨⟨by decide, (page_iteration sampleRender (-1)).1 (by decide)⟩,
   ⟨by decide, (page_iteration sampleRender 2).2 (by decide)⟩⟩

/-- C10: whenever a rating element is present its stripped text is emitted,
so a present element whose trimmed text is empty yields the empty string and
not the sentinel; the sentinel arises only from an absent element. -/
theorem rating_extraction :
    (∀ (item e : Node), find ("p") (some ("score")) item = some e →
        extract_rating item = get_text_strip e) ∧
    (∀ item : Node, find ("p") (some ("score")) item = none →
        extract_rating item = ("N/A")) ∧
    extract_rating emptyScoreItem = ("") ∧ (("") : String) ≠ ("N/A") := by
  refine ⟨?_, ?_, by decide, by decide⟩
  · intro item e h
    simp [extract_rating, h]
  · intro item h
    unfold extract_rating
    rw [h]

/-- C10 witness: the rating equations at the whitespace-score and score-free
fixtures. -/
theorem rating_extraction_witness :
    extract_rating emptyScoreItem = get_text_strip scoreElem ∧
    extract_rating noScoreItem = ("N/A") :=
  ⟨rating_extraction.1 emptyScoreItem scoreElem rfl,
   rating_extraction.2.1 noScoreItem rfl⟩

/-- C8 counterexample: one record whose name holds a line feed produces a
file of 3 lines, not `len(records) + 1 = 2`: the quoted field spreads over
two physical lines. -/
theorem save_to_csv_line_count_cex :
    (save_to_csv [Record.mk ("a\nb") ("u") ("r") ("g")]).map (fun c => (fileLines c).length) =
      some 3 ∧
    [Record.mk ("a\nb") ("u") ("r") ("g")].length + 1 = 2 ∧ (3 : Nat) ≠ 2 := by
  exact ⟨by decide, rfl, by decide⟩

/-- C8 amended: an empty record sequence produces no file, and a non-empty
sequence whose fields are free of line breaks produces a file whose first
line is exactly the header `name,image_url,rating,genre` and which holds
exactly `len(records) + 1` lines. -/
theorem save_to_csv_output :
    save_to_csv ([] : List Record) = none ∧
    ∀ movies : List Record, movies ≠ [] → movies.all recordClean = true →
      ∃ content, save_to_csv movies = some content ∧
        (fileLines content).head? = some ("name,image_url,rating,genre") ∧
        (fileLines content).length = movies.length + 1 := by
  refine ⟨rfl, ?_⟩
  intro movies hne hclean
  obtain ⟨m, ms, rfl⟩ : ∃ m ms, movies = m :: ms := by
    cases movies with
    | nil => exact absurd rfl hne
    | cons m ms => exact ⟨m, ms, rfl⟩
  have hrows :
      splitLines (((csvHeaderBody :: (m :: ms).map csvRowBody).map
          (fun row => row ++ ['\r', '\n'])).flatten) =
        csvHeaderBody :: (m :: ms).map csvRowBody := by
    apply splitLines_rows
    intro row hrow
    rcases List.mem_cons.mp hrow with rfl | hrow
    · decide
    · obtain ⟨r, hr, rfl⟩ := List.mem_map.mp hrow
      exact csvRowBody_noBreak (List.all_eq_true.mp hclean r hr)
  have hflat :
      ((csvHeaderBody :: (m :: ms).map csvRowBody).map
          (fun row => row ++ ['\r', '\n'])).flatten =
        (csvHeaderBody ++ ['\r', '\n']) ++ ((m :: ms).map csvRow).flatten := by
    simp only [List.map_cons, List.flatten_cons, List.map_map]
    congr 1
  have hfl :
      fileLines (String.mk ((csvHeaderBody ++ ['\r', '\n']) ++ ((m :: ms).map csvRow).flatten)) =
        (csvHeaderBody :: (m :: ms).map csvRowBody).map String.mk := by
    show (splitLines ((csvHeaderBody ++ ['\r', '\n']) ++
        ((m :: ms).map csvRow).flatten)).map String.mk = _
    rw [← hflat, hrows]
  refine ⟨String.mk ((csvHeaderBody ++ ['\r', '\n']) ++ ((m :: ms).map csvRow).flatten),
    rfl, ?_, ?_⟩
  · rw [hfl]
    rfl
  · rw [hfl]
    simp

/-- C8 amended witness: one clean record produces a two-line file headed by
the field names. -/
theorem save_to_csv_output_witness :
    [Record.mk ("Farewell") ("https://ssr1.scrape.center/img/1.jpg") ("9.5") ("Drama Crime")]
        ≠ [] ∧
    [Record.mk ("Farewell") ("https://ssr1.scrape.center/img/1.jpg") ("9.5")
        ("Drama Crime")].all recordClean = true ∧
    ∃ content,
      save_to_csv [Record.mk ("Farewell") ("https://ssr1.scrape.center/img/1.jpg") ("9.5")
          ("Drama Crime")] = some content ∧
        (fileLines content).head? = some ("name,image_url,rating,genre") ∧
        (fileLines content).length =
          [Record.mk ("Farewell") ("https://ssr1.scrape.center/img/1.jpg") ("9.5")
            ("Drama Crime")].length + 1 :=
  ⟨by decide, by decide,
   save_to_csv_output.2
     [Record.mk ("Farewell") ("https://ssr1.scrape.center/img/1.jpg") ("9.5") ("Drama Crime")]
     (by decide) (by decide)⟩

